import Mathlib

/-!
Verification of the GlassifyNotes document exporter.

The repository has two implementations of the same exporter:
`NoteApp.save_to_file` / `NoteApp.save_as_docx` in `src/main.py`, and
`NoteModel.save_to_file` / `NoteModel._save_as_docx` /
`NoteModel._add_image_to_doc` in `src/2.py`.  Both parse the editor's HTML
with BeautifulSoup, walk `soup.body.descendants`, turn `p` tags into
paragraphs and `img` tags into pictures (base64-decoding the data-URI
payload, opening it with PIL, re-encoding to a fresh temporary PNG file and
inserting it with width `Inches(4)`), and otherwise write the content string
verbatim as UTF-8 when the target path does not end in `.docx`.

The embedding below models the parsed HTML tree directly (BeautifulSoup's
parsing itself is kept abstract: theorems quantify over the parse function),
and models the library calls the code makes (`str.split`, CPython's
`base64.b64decode`, PIL's image identification, `tempfile` name allocation,
python-docx's `add_paragraph` / `add_picture`) at the level of detail the
code observes.
-/

namespace GlassifyNotes

instance {ε α : Type} [DecidableEq ε] [DecidableEq α] :
    DecidableEq (Except ε α) := fun x y =>
  match x, y with
  | .ok a, .ok b =>
    if h : a = b then .isTrue (by rw [h])
    else .isFalse (by intro hc; injection hc; exact h (by assumption))
  | .error e, .error f =>
    if h : e = f then .isTrue (by rw [h])
    else .isFalse (by intro hc; injection hc; exact h (by assumption))
  | .ok _, .error _ => .isFalse (by intro hc; injection hc)
  | .error _, .ok _ => .isFalse (by intro hc; injection hc)

/-- A node of the parsed HTML tree, as BeautifulSoup exposes it: either a
`NavigableString` (plain text, whose `.name` is `None`) or a `Tag` with a
name, an attribute dictionary and a list of children. -/
inductive Node where
  | text (s : String)
  | tag (nm : String) (attrs : List (String × String)) (children : List Node)

/-- BeautifulSoup's `.name`: `None` on a `NavigableString`, the tag name on a
`Tag`.  The code compares it with `"p"` and `"img"`. -/
def Node.name? : Node → Option String
  | .text _ => none
  | .tag nm _ _ => some nm

/-- Lookup in a tag's attribute dictionary (first binding wins). -/
def attrFind : List (String × String) → String → Option String
  | [], _ => none
  | (a, v) :: rest, k => if a = k then some v else attrFind rest k

/-- Model of `element[key]` attribute access: `none` means Python's
`KeyError`. -/
def getAttr : Node → String → Option String
  | .text _, _ => none
  | .tag _ attrs _, k => attrFind attrs k

mutual

/-- BeautifulSoup's `.descendants`: every node strictly below this one, in
document order (each child is yielded before its own descendants). -/
def descendants : Node → List Node
  | .text _ => []
  | .tag _ _ cs => descList cs

/-- Descendant traversal of a list of sibling subtrees. -/
def descList : List Node → List Node
  | [] => []
  | n :: rest => n :: (descendants n ++ descList rest)

end

mutual

/-- BeautifulSoup's `.get_text()`: the concatenation of every string in the
subtree, all markup discarded. -/
def getText : Node → String
  | .text s => s
  | .tag _ _ cs => getTextL cs

/-- Concatenated text of a list of sibling subtrees. -/
def getTextL : List Node → String
  | [] => ""
  | n :: rest => getText n ++ getTextL rest

end

mutual

/-- Pre-order search of one subtree for a tag named `body` (the node itself
included). -/
def findBodyNode : Node → Option Node
  | .text _ => none
  | .tag nm a cs =>
    if nm = "body" then some (.tag nm a cs) else findBody cs

/-- BeautifulSoup's `soup.body`, i.e. `soup.find "body"`: the first tag named
`body` in pre-order over the parsed forest, or `none` (Python `None`) when
there is no such tag. -/
def findBody : List Node → Option Node
  | [] => none
  | n :: rest =>
    match findBodyNode n with
    | some b => some b
    | none => findBody rest

end

/-- Model of Python's `s.split(",")` on a character list: cut at every comma;
the empty string yields one empty piece, as Python does. -/
def splitCommaL : List Char → List (List Char)
  | [] => [[]]
  | c :: cs =>
    if c = ',' then [] :: splitCommaL cs
    else
      match splitCommaL cs with
      | [] => [[c]]
      | g :: gs => (c :: g) :: gs

/-- Model of Python's `s.split(",")`: the list of comma-separated pieces. -/
def pySplitComma (s : String) : List String :=
  (splitCommaL s.data).map fun g => ⟨g⟩

/-- Model of Python's `s.endswith(suf)`. -/
def endsWithPy (s suf : String) : Bool := List.isSuffixOf suf.data s.data

/-- Index of a character in the standard base64 alphabet. -/
def b64Index (c : Char) : Option Nat :=
  if 'A' ≤ c ∧ c ≤ 'Z' then some (c.toNat - 65)
  else if 'a' ≤ c ∧ c ≤ 'z' then some (c.toNat - 97 + 26)
  else if '0' ≤ c ∧ c ≤ '9' then some (c.toNat - 48 + 52)
  else if c = '+' then some 62
  else if c = '/' then some 63
  else none

/-- Decode a run of 6-bit base64 digits into bytes: full quads give three
bytes, a trailing pair gives one byte and a trailing triple gives two (the
leftover low bits are dropped, as CPython's decoder does). -/
def decodeIdxs : List Nat → List Nat
  | a :: b :: c :: d :: rest =>
    (a * 4 + b / 16) :: ((b % 16) * 16 + c / 4) :: ((c % 4) * 64 + d) ::
      decodeIdxs rest
  | [a, b] => [a * 4 + b / 16]
  | [a, b, c] => [a * 4 + b / 16, (b % 16) * 16 + c / 4]
  | _ => []

/-- Model of CPython's `base64.b64decode(s)` with its default
`validate=False` (the call the code makes): characters outside the base64
alphabet are discarded, data after the first `=` padding character is
ignored, and the decode fails (`binascii.Error`, modelled as `none`) when
the number of data characters is 1 mod 4, or is 2 or 3 mod 4 without enough
padding characters to complete the final group. -/
def b64decode (s : String) : Option (List Nat) :=
  let cs := s.data.filter fun c => (b64Index c).isSome || c == '='
  let dat := (cs.takeWhile fun c => c != '=').filterMap b64Index
  let pads := ((cs.dropWhile fun c => c != '=').filter fun c => c == '=').length
  if dat.length % 4 == 1 then none
  else if dat.length % 4 == 2 && pads < 2 then none
  else if dat.length % 4 == 3 && pads < 1 then none
  else some (decodeIdxs dat)

/-- An in-memory image, identified by the byte payload it was decoded from.
PIL's further processing (pixel decoding, PNG re-encoding) is kept abstract:
what the exporter observes of an image is which bytes it came from. -/
structure Img where
  bytes : List Nat
deriving DecidableEq, Repr

/-- Magic signature of a PNG file. -/
def pngSignature : List Nat := [137, 80, 78, 71, 13, 10, 26, 10]

/-- Magic signature of a JPEG file. -/
def jpegSignature : List Nat := [255, 216, 255]

/-- Magic signature of a GIF file. -/
def gifSignature : List Nat := [71, 73, 70, 56]

/-- Magic signature of a BMP file. -/
def bmpSignature : List Nat := [66, 77]

/-- Model of `PIL.Image.open` on an in-memory byte stream: PIL identifies the
image format by its magic signature and raises `UnidentifiedImageError`
(modelled as `none`) when the bytes match no known format. -/
def imageOpen (bs : List Nat) : Option Img :=
  if pngSignature.isPrefixOf bs || jpegSignature.isPrefixOf bs
      || gifSignature.isPrefixOf bs || bmpSignature.isPrefixOf bs then
    some ⟨bs⟩
  else none

/-- `docx.shared.Inches`: a length in EMU (914400 EMU per inch). -/
def Inches (n : Nat) : Nat := n * 914400

/-- One block-level item of the assembled DOCX document: a paragraph added by
`document.add_paragraph`, or a picture added by `document.add_picture` with
an explicit width. -/
inductive DocItem where
  | para (text : String)
  | picture (img : Img) (width : Nat)
deriving DecidableEq, Repr

/-- State threaded through the DOCX conversion loop: the document items
assembled so far, the temporary files written so far (id paired with the
image saved into the file), and the id `tempfile.NamedTemporaryFile` will
hand out next. -/
structure DocxSt where
  doc : List DocItem
  temps : List (Nat × Img)
  nextTemp : Nat
deriving DecidableEq, Repr

/-- The image-decoding pipeline both implementations run on an `img`
element's `src` string: `src.split(",")[1]` (Python's `split` cuts at every
comma and `[1]` takes the second piece; `none` is the `IndexError` when
there is no comma), then `base64.b64decode`, then `PIL.Image.open`.  Error
strings model the `str(e)` of the corresponding Python exception. -/
def decodeImgSrc (src : String) : Except String Img :=
  match (pySplitComma src).get? 1 with
  | none => .error "IndexError: list index out of range"
  | some payload =>
    match b64decode payload with
    | none => .error "binascii.Error: Invalid base64-encoded string"
    | some bytes =>
      match imageOpen bytes with
      | none => .error "PIL.UnidentifiedImageError: cannot identify image file"
      | some img => .ok img

/-- Decode the image carried by an `img` element: `element["src"]` (a
missing attribute is Python's `KeyError`) followed by `decodeImgSrc`. -/
def decodeImgElement (n : Node) : Except String Img :=
  match getAttr n "src" with
  | none => .error "KeyError: src"
  | some src => decodeImgSrc src

/-- UTF-8 encoding of one character (the byte sequence `open(..., "w",
encoding="utf-8")` writes for it). -/
def utf8Bytes (c : Char) : List Nat :=
  if c.toNat < 128 then [c.toNat]
  else if c.toNat < 2048 then [192 + c.toNat / 64, 128 + c.toNat % 64]
  else if c.toNat < 65536 then
    [224 + c.toNat / 4096, 128 + c.toNat / 64 % 64, 128 + c.toNat % 64]
  else
    [240 + c.toNat / 262144, 128 + c.toNat / 4096 % 64,
     128 + c.toNat / 64 % 64, 128 + c.toNat % 64]

/-- UTF-8 encoding of a character list. -/
def utf8EncodeL : List Char → List Nat
  | [] => []
  | c :: cs => utf8Bytes c ++ utf8EncodeL cs

/-- UTF-8 encoding of a string: the exact bytes `file.write(content)` puts
in a file opened with `encoding="utf-8"`. -/
def utf8Encode (s : String) : List Nat := utf8EncodeL s.data

/-- Content of one file on disk: either raw bytes written through the text
branch, or an assembled DOCX package written by `document.save` (identified
by its block items). -/
inductive FileEntry where
  | textFile (bytes : List Nat)
  | docxFile (doc : List DocItem)
deriving DecidableEq, Repr

/-- Write (create or truncate) a file: replace the entry at the path if one
exists, else append a new entry. -/
def writeEntry : List (String × FileEntry) → String → FileEntry →
    List (String × FileEntry)
  | [], p, e => [(p, e)]
  | (q, v) :: rest, p, e =>
    if q = p then (p, e) :: rest else (q, v) :: writeEntry rest p e

/-- Read the file stored at a path, if any. -/
def lookupFile : List (String × FileEntry) → String → Option FileEntry
  | [], _ => none
  | (q, v) :: rest, p => if q = p then some v else lookupFile rest p

/-- Observable state outside the exporter: the filesystem, the temp-file
directory populated so far, and the id the next `NamedTemporaryFile` gets.
(Temporary files written by a conversion attempt that then fails are not
tracked: no claim concerns them.) -/
structure World where
  fs : List (String × FileEntry)
  tempDir : List (Nat × Img)
  nextTemp : Nat
deriving DecidableEq, Repr

namespace MainPy

/-- Loop body of `NoteApp.save_as_docx` (src/main.py lines 129-147) for one
visited element: a `p` tag appends `document.add_paragraph(element.get_text())`,
an `img` tag decodes the image, saves it to a fresh temporary PNG file and
appends `document.add_picture(temp_image_path, width=Inches(4))`; any other
node has no effect.  Exceptions propagate unwrapped (main.py has no
try/except). -/
def processElement (st : DocxSt) (n : Node) : Except String DocxSt :=
  if n.name? = some "p" then
    .ok { st with doc := st.doc ++ [DocItem.para (getText n)] }
  else if n.name? = some "img" then
    match decodeImgElement n with
    | .ok img =>
      .ok ⟨st.doc ++ [DocItem.picture img (Inches 4)],
           st.temps ++ [(st.nextTemp, img)], st.nextTemp + 1⟩
    | .error e => .error e
  else .ok st

/-- The `for element in soup.body.descendants` loop of
`NoteApp.save_as_docx`: fold `processElement` over the visited nodes,
stopping at the first exception. -/
def processAll (st : DocxSt) : List Node → Except String DocxSt
  | [] => .ok st
  | n :: rest =>
    match processElement st n with
    | .ok st' => processAll st' rest
    | .error e => .error e

/-- `NoteApp.save_as_docx` without the final `document.save`: parse result
in, assembled document out.  When the parsed tree has no `body`,
`soup.body.descendants` raises `AttributeError` (modelled as the error
string). -/
def saveAsDocx (soup : List Node) (nextTemp : Nat) : Except String DocxSt :=
  match findBody soup with
  | none => .error "AttributeError: NoneType object has no attribute descendants"
  | some body => processAll ⟨[], [], nextTemp⟩ (descendants body)

/-- `NoteApp.save_to_file` (src/main.py lines 113-118): a path ending in
`.docx` takes the DOCX conversion, every other path gets the content string
written verbatim as UTF-8.  main.py returns `None` on success and lets any
exception escape unwrapped. -/
def saveToFile (parse : String → List Node) (w : World)
    (content fileName : String) : World × Except String Unit :=
  if endsWithPy fileName ".docx" then
    match saveAsDocx (parse content) w.nextTemp with
    | .ok out =>
      ({ fs := writeEntry w.fs fileName (.docxFile out.doc),
         tempDir := w.tempDir ++ out.temps,
         nextTemp := out.nextTemp }, .ok ())
    | .error e => (w, .error e)
  else
    ({ w with fs := writeEntry w.fs fileName (.textFile (utf8Encode content)) },
     .ok ())

end MainPy

namespace TwoPy

/-- `NoteModel._add_image_to_doc` (src/2.py lines 52-64): decode the `img`
element, save the image to a fresh temporary PNG file and add it as a
picture of width `Inches(4)`; any exception is re-raised as
`Exception(f"Image processing failed: {e}")`. -/
def addImageToDoc (st : DocxSt) (n : Node) : Except String DocxSt :=
  match decodeImgElement n with
  | .ok img =>
    .ok ⟨st.doc ++ [DocItem.picture img (Inches 4)],
         st.temps ++ [(st.nextTemp, img)], st.nextTemp + 1⟩
  | .error e => .error ("Image processing failed: " ++ e)

/-- Loop body of `NoteModel._save_as_docx` (src/2.py lines 42-46) for one
visited element. -/
def processElement (st : DocxSt) (n : Node) : Except String DocxSt :=
  if n.name? = some "p" then
    .ok { st with doc := st.doc ++ [DocItem.para (getText n)] }
  else if n.name? = some "img" then addImageToDoc st n
  else .ok st

/-- The `for element in soup.body.descendants` loop of
`NoteModel._save_as_docx`. -/
def processAll (st : DocxSt) : List Node → Except String DocxSt
  | [] => .ok st
  | n :: rest =>
    match processElement st n with
    | .ok st' => processAll st' rest
    | .error e => .error e

/-- Body of the `try` block of `NoteModel._save_as_docx`: traversal of the
parsed body, before the method's own exception wrapping. -/
def saveAsDocxBody (soup : List Node) (nextTemp : Nat) :
    Except String DocxSt :=
  match findBody soup with
  | none => .error "AttributeError: NoneType object has no attribute descendants"
  | some body => processAll ⟨[], [], nextTemp⟩ (descendants body)

/-- `NoteModel._save_as_docx` (src/2.py lines 36-50): the traversal, with
every exception re-raised as `Exception(f"DOCX conversion failed: {e}")`. -/
def saveAsDocx (soup : List Node) (nextTemp : Nat) : Except String DocxSt :=
  match saveAsDocxBody soup nextTemp with
  | .ok out => .ok out
  | .error e => .error ("DOCX conversion failed: " ++ e)

/-- `NoteModel.save_to_file` (src/2.py lines 24-34): `.docx` suffix selects
DOCX conversion, anything else writes the content verbatim as UTF-8; the
method returns `True` on success and re-raises any exception as
`Exception(f"Save failed: {e}")`. -/
def saveToFile (parse : String → List Node) (w : World)
    (content fileName : String) : World × Except String Bool :=
  if endsWithPy fileName ".docx" then
    match saveAsDocx (parse content) w.nextTemp with
    | .ok out =>
      ({ fs := writeEntry w.fs fileName (.docxFile out.doc),
         tempDir := w.tempDir ++ out.temps,
         nextTemp := out.nextTemp }, .ok true)
    | .error e => (w, .error ("Save failed: " ++ e))
  else
    ({ w with fs := writeEntry w.fs fileName (.textFile (utf8Encode content)) },
     .ok true)

end TwoPy

/-- Contribution of one visited node to the output document, as the spec
describes step 3 of the conversion algorithm: a `p` node yields one
paragraph holding its flattened plain text, an `img` node yields one
picture of width `Inches 4` holding its decoded image, and every other node
yields nothing. -/
def nodeContrib (n : Node) : List DocItem :=
  if n.name? = some "p" then [DocItem.para (getText n)]
  else if n.name? = some "img" then
    match decodeImgElement n with
    | .ok img => [DocItem.picture img (Inches 4)]
    | .error _ => []
  else []

/-- Concatenated contributions of a list of visited nodes, in visit order. -/
def contribAll : List Node → List DocItem
  | [] => []
  | n :: rest => nodeContrib n ++ contribAll rest

/-- The successfully decoded image of one visited node (`img` nodes only). -/
def nodeImgs (n : Node) : List Img :=
  if n.name? = some "p" then []
  else if n.name? = some "img" then
    match decodeImgElement n with
    | .ok img => [img]
    | .error _ => []
  else []

/-- All successfully decoded images of a list of visited nodes, in visit
order. -/
def imgsAll : List Node → List Img
  | [] => []
  | n :: rest => nodeImgs n ++ imgsAll rest

/-- Projection of a document to its pictures (image and width), in order. -/
def picturesOf : List DocItem → List (Img × Nat)
  | [] => []
  | DocItem.para _ :: rest => picturesOf rest
  | DocItem.picture i w :: rest => (i, w) :: picturesOf rest

/-- Projection of a document to its paragraph texts, in order. -/
def parasOf : List DocItem → List String
  | [] => []
  | DocItem.para t :: rest => t :: parasOf rest
  | DocItem.picture _ _ :: rest => parasOf rest

/-- Formalisation of the SPEC's wording for the `src` split (for comparison
with the code): split on the FIRST comma and keep the whole remainder,
`none` when the string has no comma. -/
def specSplitRemainder (src : String) : Option String :=
  match src.data.dropWhile (fun c => c != ',') with
  | [] => none
  | _ :: rest => some ⟨rest⟩

/-- The image pipeline as the SPEC words it (for comparison with
`decodeImgSrc`): base64-decode the remainder after the first comma, then
open the bytes as an image. -/
def specDecodeImgSrc (src : String) : Except String Img :=
  match specSplitRemainder src with
  | none => .error "IndexError: list index out of range"
  | some payload =>
    match b64decode payload with
    | none => .error "binascii.Error: Invalid base64-encoded string"
    | some bytes =>
      match imageOpen bytes with
      | none => .error "PIL.UnidentifiedImageError: cannot identify image file"
      | some img => .ok img

/-- Consecutive temp-file ids handed out starting at `s`. -/
def idsFrom (s : Nat) : Nat → List Nat
  | 0 => []
  | n + 1 => s :: idsFrom (s + 1) n

/-- View of a conversion result that keeps the document and the error but
forgets the temp-file bookkeeping. -/
def resultView : Except String DocxSt → Except String (List DocItem)
  | .ok o => .ok o.doc
  | .error e => .error e

/-- View of a conversion result keeping only the success state. -/
def okOf : Except String DocxSt → Option DocxSt
  | .ok o => some o
  | .error _ => none

theorem mem_idsFrom {m : Nat} : ∀ {s n : Nat}, m ∈ idsFrom s n ↔ s ≤ m ∧ m < s + n := by
  intro s n
  induction n generalizing s with
  | zero => simp [idsFrom]
  | succ k ih =>
    simp only [idsFrom, List.mem_cons, ih]
    omega

theorem idsFrom_nodup : ∀ (s n : Nat), (idsFrom s n).Nodup := by
  intro s n
  induction n generalizing s with
  | zero => simp [idsFrom]
  | succ k ih =>
    simp only [idsFrom, List.nodup_cons, mem_idsFrom]
    exact ⟨by omega, ih (s + 1)⟩

theorem TwoPy.processAll_ok (ns : List Node) : ∀ (st out : DocxSt),
    TwoPy.processAll st ns = .ok out →
    out.doc = st.doc ++ contribAll ns ∧
    out.nextTemp = st.nextTemp + (imgsAll ns).length ∧
    out.temps = st.temps ++
      (idsFrom st.nextTemp (imgsAll ns).length).zip (imgsAll ns) := by
  induction ns with
  | nil =>
    intro st out h
    simp only [TwoPy.processAll, Except.ok.injEq] at h
    subst h
    simp [contribAll, imgsAll, idsFrom]
  | cons n rest ih =>
    intro st out h
    simp only [TwoPy.processAll] at h
    cases hpe : TwoPy.processElement st n with
    | error e => rw [hpe] at h; cases h
    | ok st' =>
      rw [hpe] at h
      obtain ⟨h1, h2, h3⟩ := ih st' out h
      unfold TwoPy.processElement at hpe
      split_ifs at hpe with hp hi
      · simp only [Except.ok.injEq] at hpe
        subst hpe
        refine ⟨?_, ?_, ?_⟩ <;>
          simp [h1, h2, h3, contribAll, imgsAll, nodeContrib, nodeImgs, hp,
            List.append_assoc]
      · unfold TwoPy.addImageToDoc at hpe
        cases hdec : decodeImgElement n with
        | error e => rw [hdec] at hpe; cases hpe
        | ok img =>
          rw [hdec] at hpe
          simp only [Except.ok.injEq] at hpe
          subst hpe
          simp only at h1 h2 h3
          refine ⟨?_, ?_, ?_⟩
          · simp [h1, contribAll, nodeContrib, hp, hi, hdec, List.append_assoc]
          · simp only [h2, imgsAll, nodeImgs, hp, hi, hdec]
            simp
            omega
          · simp only [h3, imgsAll, nodeImgs, hp, hi, hdec]
            simp [idsFrom, List.append_assoc]
      · simp only [Except.ok.injEq] at hpe
        subst hpe
        refine ⟨?_, ?_, ?_⟩ <;>
          simp [h1, h2, h3, contribAll, imgsAll, nodeContrib, nodeImgs, hp, hi]

theorem TwoPy.processAll_error (ns : List Node) : ∀ (st : DocxSt) (n : Node)
    (e : String), n ∈ ns → n.name? = some "img" →
    decodeImgElement n = .error e →
    ∃ e', TwoPy.processAll st ns = .error e' := by
  induction ns with
  | nil => intro st n e hmem; cases hmem
  | cons m rest ih =>
    intro st n e hmem hname hdec
    cases hpe : TwoPy.processElement st m with
    | error e'' => exact ⟨e'', by simp [TwoPy.processAll, hpe]⟩
    | ok st' =>
      rcases List.mem_cons.mp hmem with heq | hmem'
      · subst heq
        simp [TwoPy.processElement, hname, TwoPy.addImageToDoc, hdec] at hpe
      · obtain ⟨e', hrest⟩ := ih st' n e hmem' hname hdec
        exact ⟨e', by simp [TwoPy.processAll, hpe, hrest]⟩

theorem TwoPy.processAll_indep (ns : List Node) :
    ∀ (d : List DocItem) (t t' : List (Nat × Img)) (k k' : Nat),
    resultView (TwoPy.processAll ⟨d, t, k⟩ ns) =
      resultView (TwoPy.processAll ⟨d, t', k'⟩ ns) := by
  induction ns with
  | nil => intro d t t' k k'; simp [TwoPy.processAll, resultView]
  | cons n rest ih =>
    intro d t t' k k'
    simp only [TwoPy.processAll]
    unfold TwoPy.processElement
    split_ifs with hp hi
    · exact ih _ _ _ _ _
    · unfold TwoPy.addImageToDoc
      cases hdec : decodeImgElement n with
      | error e => simp [resultView]
      | ok img => exact ih _ _ _ _ _
    · exact ih _ _ _ _ _

theorem processAll_main_eq_two (ns : List Node) : ∀ (st : DocxSt),
    okOf (MainPy.processAll st ns) = okOf (TwoPy.processAll st ns) := by
  induction ns with
  | nil => intro st; rfl
  | cons n rest ih =>
    intro st
    simp only [MainPy.processAll, TwoPy.processAll]
    unfold MainPy.processElement TwoPy.processElement
    split_ifs with hp hi
    · exact ih _
    · unfold TwoPy.addImageToDoc
      cases hdec : decodeImgElement n with
      | error e => simp [okOf]
      | ok img => exact ih _
    · exact ih _

theorem char_eq_of_toNat_eq {a b : Char} (h : a.toNat = b.toNat) : a = b := by
  rw [← Char.ofNat_toNat a, ← Char.ofNat_toNat b, h]

theorem utf8Bytes_ne_nil (c : Char) : utf8Bytes c ≠ [] := by
  unfold utf8Bytes
  split_ifs <;> simp

theorem utf8Bytes_append_cancel {c1 c2 : Char} {r1 r2 : List Nat}
    (h : utf8Bytes c1 ++ r1 = utf8Bytes c2 ++ r2) : c1 = c2 ∧ r1 = r2 := by
  unfold utf8Bytes at h
  split_ifs at h <;>
    simp only [List.cons_append, List.nil_append, List.cons.injEq] at h <;>
    first
    | (obtain ⟨e1, e2, e3, e4, er⟩ := h
       exact ⟨char_eq_of_toNat_eq (by omega), er⟩)
    | (obtain ⟨e1, e2, e3, er⟩ := h
       first
       | exact ⟨char_eq_of_toNat_eq (by omega), er⟩
       | exact absurd e1 (by omega))
    | (obtain ⟨e1, e2, er⟩ := h
       first
       | exact ⟨char_eq_of_toNat_eq (by omega), er⟩
       | exact absurd e1 (by omega))
    | (obtain ⟨e1, er⟩ := h
       first
       | exact ⟨char_eq_of_toNat_eq (by omega), er⟩
       | exact absurd e1 (by omega))

theorem utf8EncodeL_inj : ∀ (l1 l2 : List Char),
    utf8EncodeL l1 = utf8EncodeL l2 → l1 = l2 := by
  intro l1
  induction l1 with
  | nil =>
    intro l2 h
    cases l2 with
    | nil => rfl
    | cons c cs =>
      exfalso
      simp only [utf8EncodeL] at h
      exact utf8Bytes_ne_nil c (List.append_eq_nil.mp h.symm).1
  | cons c cs ih =>
    intro l2 h
    cases l2 with
    | nil =>
      exfalso
      simp only [utf8EncodeL] at h
      exact utf8Bytes_ne_nil c (List.append_eq_nil.mp h).1
    | cons d ds =>
      simp only [utf8EncodeL] at h
      obtain ⟨hc, hr⟩ := utf8Bytes_append_cancel h
      rw [hc, ih ds hr]

theorem utf8Encode_inj : ∀ (s1 s2 : String),
    utf8Encode s1 = utf8Encode s2 → s1 = s2 := by
  intro s1 s2 h
  cases s1 with
  | mk d1 =>
    cases s2 with
    | mk d2 => exact congrArg String.mk (utf8EncodeL_inj d1 d2 h)

theorem lookupFile_writeEntry_self : ∀ (fs : List (String × FileEntry))
    (p : String) (e : FileEntry), lookupFile (writeEntry fs p e) p = some e := by
  intro fs p e
  induction fs with
  | nil => simp [writeEntry, lookupFile]
  | cons he rest ih =>
    obtain ⟨q, v⟩ := he
    by_cases hq : q = p
    · simp [writeEntry, lookupFile, hq]
    · simp [writeEntry, lookupFile, hq, ih]

theorem lookupFile_writeEntry_other : ∀ (fs : List (String × FileEntry))
    (p q : String) (e : FileEntry), q ≠ p →
    lookupFile (writeEntry fs p e) q = lookupFile fs q := by
  intro fs p q e hne
  induction fs with
  | nil => simp [writeEntry, lookupFile, hne, Ne.symm hne]
  | cons he rest ih =>
    obtain ⟨a, v⟩ := he
    by_cases ha : a = p
    · subst ha
      simp [writeEntry, lookupFile, hne, Ne.symm hne]
    · by_cases haq : a = q <;>
        simp [writeEntry, lookupFile, ha, haq, hne, ih]

theorem writeEntry_writeEntry : ∀ (fs : List (String × FileEntry))
    (p : String) (e e' : FileEntry),
    writeEntry (writeEntry fs p e) p e' = writeEntry fs p e' := by
  intro fs p e e'
  induction fs with
  | nil => simp [writeEntry]
  | cons he rest ih =>
    obtain ⟨q, v⟩ := he
    by_cases hq : q = p
    · simp [writeEntry, hq]
    · simp [writeEntry, hq, ih]

theorem idsFrom_length : ∀ (s n : Nat), (idsFrom s n).length = n := by
  intro s n
  induction n generalizing s with
  | zero => rfl
  | succ k ih => simp [idsFrom, ih]

theorem picturesOf_contribAll : ∀ (ns : List Node),
    picturesOf (contribAll ns) = (imgsAll ns).map (fun i => (i, Inches 4)) := by
  intro ns
  induction ns with
  | nil => rfl
  | cons n rest ih =>
    simp only [contribAll, imgsAll]
    unfold nodeContrib nodeImgs
    split_ifs with hp hi
    · simpa [picturesOf] using ih
    · cases hdec : decodeImgElement n <;> simpa [picturesOf] using ih
    · simpa [picturesOf] using ih

theorem okOf_eq_some {x : Except String DocxSt} {o : DocxSt} :
    okOf x = some o ↔ x = .ok o := by
  cases x <;> simp [okOf]

theorem okOf_eq_none {x : Except String DocxSt} :
    okOf x = none ↔ ∃ e, x = .error e := by
  cases x <;> simp [okOf]

/-- C1: during DOCX export the exporter visits every descendant node of the
parsed HTML body in depth-first document order; every `p` node appends
exactly one paragraph holding that node's flattened plain-text content, and
every node whose tag is neither `p` nor `img` contributes nothing: on a
successful export the assembled document is exactly the concatenation, over
`descendants body` in order, of each node's contribution. -/
theorem c1_traversal_contributions (soup : List Node) (body : Node) (k : Nat)
    (out : DocxSt) (hb : findBody soup = some body)
    (h : TwoPy.saveAsDocx soup k = .ok out) :
    out.doc = contribAll (descendants body) := by
  unfold TwoPy.saveAsDocx TwoPy.saveAsDocxBody at h
  simp only [hb] at h
  cases hpa : TwoPy.processAll ⟨[], [], k⟩ (descendants body) with
  | error e =>
    rw [hpa] at h
    exact Except.noConfusion h
  | ok out' =>
    rw [hpa] at h
    simp only [Except.ok.injEq] at h
    subst h
    simpa using (TwoPy.processAll_ok _ _ _ hpa).1

/-- Concrete PNG image fixture: the bytes base64-encoded in `pngSrcC`. -/
def pngImgC : Img := ⟨[137, 80, 78, 71, 13, 10, 26, 10]⟩

/-- Concrete data-URI fixture whose payload decodes to `pngImgC`. -/
def pngSrcC : String := "data:image/png;base64,iVBORw0KGgo="

/-- Concrete body fixture: a paragraph, a skipped `b` tag and an image. -/
def bodyC : Node :=
  Node.tag "body" []
    [Node.tag "p" [] [Node.text "Hello"],
     Node.tag "b" [] [Node.text "x"],
     Node.tag "img" [("src", pngSrcC)] []]

/-- Concrete parsed-forest fixture containing `bodyC`. -/
def soupC : List Node := [Node.tag "html" [] [bodyC]]

/-- Concrete expected conversion result for `soupC`. -/
def outC : DocxSt :=
  ⟨[DocItem.para "Hello", DocItem.picture pngImgC (Inches 4)],
   [(0, pngImgC)], 1⟩

/-- Witness for C1 at the concrete fixture document. -/
theorem c1_traversal_contributions_witness :
    findBody soupC = some bodyC ∧
    TwoPy.saveAsDocx soupC 0 = .ok outC ∧
    outC.doc = contribAll (descendants bodyC) :=
  ⟨rfl, rfl, c1_traversal_contributions soupC bodyC 0 outC rfl rfl⟩

/-- C7: an image nested inside a paragraph is visited twice, once through the
paragraph and once on its own: the paragraph contributes one paragraph with
its flattened text and the nested image additionally contributes one
picture. -/
theorem c7_nested_image_dual_visit (t src : String) (img : Img) (k : Nat)
    (h : decodeImgSrc src = .ok img) :
    TwoPy.saveAsDocx
      [Node.tag "html" [] [Node.tag "body" []
        [Node.tag "p" [] [Node.text t, Node.tag "img" [("src", src)] []]]]] k
      = .ok ⟨[DocItem.para t, DocItem.picture img (Inches 4)],
             [(k, img)], k + 1⟩ := by
  have hg : getText (Node.tag "p" []
      [Node.text t, Node.tag "img" [("src", src)] []]) = t := by
    simp [getText, getTextL, String.append_empty]
  simp [TwoPy.saveAsDocx, TwoPy.saveAsDocxBody, findBody, findBodyNode,
    descendants, descList, TwoPy.processAll, TwoPy.processElement,
    TwoPy.addImageToDoc, decodeImgElement, getAttr, attrFind, h,
    Node.name?, hg]

/-- Witness for C7 at a concrete nested image. -/
theorem c7_nested_image_dual_visit_witness :
    decodeImgSrc pngSrcC = .ok pngImgC ∧
    TwoPy.saveAsDocx
      [Node.tag "html" [] [Node.tag "body" []
        [Node.tag "p" [] [Node.text "cap", Node.tag "img" [("src", pngSrcC)] []]]]] 0
      = .ok ⟨[DocItem.para "cap", DocItem.picture pngImgC (Inches 4)],
             [(0, pngImgC)], 1⟩ :=
  ⟨by decide, c7_nested_image_dual_visit "cap" pngSrcC pngImgC 0 (by decide)⟩

/-- C9: when the parsed tree has no `body` element, DOCX export fails (the
code dereferences `soup.body`, which is `None`) instead of producing an
empty document, in both implementations; the world is left unchanged. -/
theorem c9_missing_body_fails (parse : String → List Node) (w : World)
    (content path : String) (hpath : endsWithPy path ".docx" = true)
    (hb : findBody (parse content) = none) :
    (∃ e, TwoPy.saveToFile parse w content path = (w, .error e)) ∧
    (∃ e, MainPy.saveToFile parse w content path = (w, .error e)) := by
  constructor
  · refine ⟨"Save failed: " ++ ("DOCX conversion failed: "
      ++ "AttributeError: NoneType object has no attribute descendants"), ?_⟩
    simp [TwoPy.saveToFile, hpath, TwoPy.saveAsDocx, TwoPy.saveAsDocxBody, hb]
  · refine ⟨"AttributeError: NoneType object has no attribute descendants", ?_⟩
    simp [MainPy.saveToFile, hpath, MainPy.saveAsDocx, hb]

/-- Witness for C9: exporting content that parses to a body-less forest. -/
theorem c9_missing_body_fails_witness :
    (∃ e, TwoPy.saveToFile (fun _ => [Node.tag "p" [] [Node.text "x"]])
      ⟨[], [], 0⟩ "c" "note.docx" = (⟨[], [], 0⟩, .error e)) ∧
    (∃ e, MainPy.saveToFile (fun _ => [Node.tag "p" [] [Node.text "x"]])
      ⟨[], [], 0⟩ "c" "note.docx" = (⟨[], [], 0⟩, .error e)) :=
  c9_missing_body_fails (fun _ => [Node.tag "p" [] [Node.text "x"]])
    ⟨[], [], 0⟩ "c" "note.docx" (by decide) rfl

/-- C10: the two DOCX conversions (`NoteApp.save_as_docx` in src/main.py and
`NoteModel._save_as_docx` in src/2.py) are equivalent on successful runs:
they succeed on exactly the same inputs and then assemble identical
documents (same paragraphs, same pictures, same temp files); they differ
only in how errors are wrapped. -/
theorem c10_implementations_equiv (soup : List Node) (k : Nat) :
    (∀ out : DocxSt,
      MainPy.saveAsDocx soup k = .ok out ↔ TwoPy.saveAsDocx soup k = .ok out) ∧
    ((∃ e, MainPy.saveAsDocx soup k = .error e) ↔
      (∃ e, TwoPy.saveAsDocx soup k = .error e)) := by
  have hok : okOf (MainPy.saveAsDocx soup k) = okOf (TwoPy.saveAsDocx soup k) := by
    unfold MainPy.saveAsDocx TwoPy.saveAsDocx TwoPy.saveAsDocxBody
    cases hb : findBody soup with
    | none => rfl
    | some body =>
      have h0 := processAll_main_eq_two (descendants body) ⟨[], [], k⟩
      cases h2 : TwoPy.processAll ⟨[], [], k⟩ (descendants body) with
      | ok o =>
        rw [h2] at h0
        simpa only [h2, okOf] using h0
      | error e =>
        rw [h2] at h0
        simpa only [h2, okOf] using h0
  constructor
  · intro out
    constructor
    · intro h
      have hs : okOf (TwoPy.saveAsDocx soup k) = some out := by rw [← hok, h]; rfl
      exact okOf_eq_some.mp hs
    · intro h
      have hs : okOf (MainPy.saveAsDocx soup k) = some out := by rw [hok, h]; rfl
      exact okOf_eq_some.mp hs
  · constructor
    · intro ⟨e, h⟩
      have hs : okOf (TwoPy.saveAsDocx soup k) = none := by rw [← hok, h]; rfl
      exact okOf_eq_none.mp hs
    · intro ⟨e, h⟩
      have hs : okOf (MainPy.saveAsDocx soup k) = none := by rw [hok, h]; rfl
      exact okOf_eq_none.mp hs

/-- C3: the export format is selected solely by the path's trailing
characters.  A path not ending in `.docx` gets the content written verbatim
as UTF-8 (in both implementations), with no DOCX conversion performed — the
outcome does not depend on the HTML parse at all; a path ending in `.docx`
performs the DOCX conversion. -/
theorem c3_format_selection (parse : String → List Node) (w : World)
    (content path : String) :
    (endsWithPy path ".docx" = false →
      TwoPy.saveToFile parse w content path
        = ({ w with fs := writeEntry w.fs path (.textFile (utf8Encode content)) },
           .ok true) ∧
      MainPy.saveToFile parse w content path
        = ({ w with fs := writeEntry w.fs path (.textFile (utf8Encode content)) },
           .ok ()) ∧
      (∀ parse' : String → List Node,
        TwoPy.saveToFile parse' w content path
          = TwoPy.saveToFile parse w content path)) ∧
    (endsWithPy path ".docx" = true →
      (∃ out, TwoPy.saveAsDocx (parse content) w.nextTemp = .ok out ∧
        TwoPy.saveToFile parse w content path
          = ({ fs := writeEntry w.fs path (.docxFile out.doc),
               tempDir := w.tempDir ++ out.temps, nextTemp := out.nextTemp },
             .ok true)) ∨
      (∃ e, TwoPy.saveAsDocx (parse content) w.nextTemp = .error e ∧
        TwoPy.saveToFile parse w content path
          = (w, .error ("Save failed: " ++ e)))) := by
  constructor
  · intro hf
    refine ⟨?_, ?_, fun parse' => ?_⟩ <;>
      simp [TwoPy.saveToFile, MainPy.saveToFile, hf]
  · intro ht
    cases hs : TwoPy.saveAsDocx (parse content) w.nextTemp with
    | ok out =>
      exact Or.inl ⟨out, rfl, by simp [TwoPy.saveToFile, ht, hs]⟩
    | error e =>
      exact Or.inr ⟨e, rfl, by simp [TwoPy.saveToFile, ht, hs]⟩

/-- Witness for C3: a non-`.docx` path takes the verbatim text branch. -/
theorem c3_format_selection_witness :
    TwoPy.saveToFile (fun _ => []) ⟨[], [], 0⟩ "c" "n.html"
      = (⟨writeEntry [] "n.html" (.textFile (utf8Encode "c")), [], 0⟩, .ok true) :=
  ((c3_format_selection (fun _ => []) ⟨[], [], 0⟩ "c" "n.html").1 (by decide)).1

/-- C4: in src/2.py, any exception during DOCX parsing, decoding or image
handling makes the whole export call fail with a single wrapped error that
carries the original cause (`Save failed: DOCX conversion failed: <cause>`),
no success value is returned, and the world is untouched — nothing escapes
the exporter boundary unwrapped. -/
theorem c4_error_wrapping (parse : String → List Node) (w : World)
    (content path e0 : String) (hpath : endsWithPy path ".docx" = true)
    (hdocx : TwoPy.saveAsDocxBody (parse content) w.nextTemp = .error e0) :
    TwoPy.saveToFile parse w content path
      = (w, .error ("Save failed: " ++ ("DOCX conversion failed: " ++ e0))) := by
  simp [TwoPy.saveToFile, hpath, TwoPy.saveAsDocx, hdocx]

/-- Witness for C4: a parse failure cause surfaces once, wrapped. -/
theorem c4_error_wrapping_witness :
    TwoPy.saveToFile (fun _ => []) ⟨[], [], 0⟩ "c" "n.docx"
      = (⟨[], [], 0⟩, .error ("Save failed: " ++ ("DOCX conversion failed: "
          ++ "AttributeError: NoneType object has no attribute descendants"))) :=
  c4_error_wrapping (fun _ => []) ⟨[], [], 0⟩ "c" "n.docx"
    "AttributeError: NoneType object has no attribute descendants"
    (by decide) (by decide)

/-- C5: an `img` element with a malformed `src` (no comma, bad base64, or
bytes that are no image) makes the entire export fail in both
implementations: nothing is written and no partial result is delivered. -/
theorem c5_malformed_image_fails (parse : String → List Node) (w : World)
    (content path : String) (body n : Node) (e : String)
    (hpath : endsWithPy path ".docx" = true)
    (hb : findBody (parse content) = some body)
    (hn : n ∈ descendants body) (hname : n.name? = some "img")
    (hdec : decodeImgElement n = .error e) :
    (∃ e', TwoPy.saveToFile parse w content path = (w, .error e')) ∧
    (∃ e', MainPy.saveToFile parse w content path = (w, .error e')) := by
  obtain ⟨e', hfold⟩ := TwoPy.processAll_error (descendants body)
    ⟨[], [], w.nextTemp⟩ n e hn hname hdec
  constructor
  · refine ⟨"Save failed: " ++ ("DOCX conversion failed: " ++ e'), ?_⟩
    simp [TwoPy.saveToFile, hpath, TwoPy.saveAsDocx, TwoPy.saveAsDocxBody, hb,
      hfold]
  · have h0 := processAll_main_eq_two (descendants body) ⟨[], [], w.nextTemp⟩
    rw [hfold] at h0
    obtain ⟨e'', hmain⟩ := okOf_eq_none.mp (by simpa [okOf] using h0)
    refine ⟨e'', ?_⟩
    simp [MainPy.saveToFile, hpath, MainPy.saveAsDocx, hb, hmain]

/-- Witness for C5: an image whose `src` has no comma fails both exports. -/
theorem c5_malformed_image_fails_witness :
    (∃ e', TwoPy.saveToFile
      (fun _ => [Node.tag "body" [] [Node.tag "img" [("src", "nocomma")] []]])
      ⟨[], [], 0⟩ "c" "n.docx" = (⟨[], [], 0⟩, .error e')) ∧
    (∃ e', MainPy.saveToFile
      (fun _ => [Node.tag "body" [] [Node.tag "img" [("src", "nocomma")] []]])
      ⟨[], [], 0⟩ "c" "n.docx" = (⟨[], [], 0⟩, .error e')) :=
  c5_malformed_image_fails
    (fun _ => [Node.tag "body" [] [Node.tag "img" [("src", "nocomma")] []]])
    ⟨[], [], 0⟩ "c" "n.docx"
    (Node.tag "body" [] [Node.tag "img" [("src", "nocomma")] []])
    (Node.tag "img" [("src", "nocomma")] [])
    "IndexError: list index out of range"
    (by decide) rfl (List.mem_singleton_self _) rfl (by decide)

/-- C6: for a non-`.docx` path the bytes written are exactly the UTF-8
encoding of the content (byte-identical passthrough), UTF-8 encoding is
injective (so reading the file back recovers the original string), and a
repeated export of the same content to the same path leaves the world
unchanged (idempotent). -/
theorem c6_html_roundtrip (parse : String → List Node) (w : World)
    (content path : String) (hpath : endsWithPy path ".docx" = false) :
    lookupFile (TwoPy.saveToFile parse w content path).1.fs path
      = some (.textFile (utf8Encode content)) ∧
    (∀ content' : String,
      utf8Encode content' = utf8Encode content → content' = content) ∧
    (TwoPy.saveToFile parse (TwoPy.saveToFile parse w content path).1
        content path).1
      = (TwoPy.saveToFile parse w content path).1 := by
  refine ⟨?_, ?_, ?_⟩
  · simp [TwoPy.saveToFile, hpath, lookupFile_writeEntry_self]
  · intro c' h
    exact utf8Encode_inj c' content h
  · simp [TwoPy.saveToFile, hpath, writeEntry_writeEntry]

/-- Witness for C6: exporting a string with a non-ASCII character. -/
theorem c6_html_roundtrip_witness :
    lookupFile (TwoPy.saveToFile (fun _ => []) ⟨[], [], 0⟩ "hé" "n.html").1.fs
      "n.html" = some (.textFile (utf8Encode "hé")) :=
  (c6_html_roundtrip (fun _ => []) ⟨[], [], 0⟩ "hé" "n.html" (by decide)).1

/-- Re-raise helper shape: keep a success, rewrite an error message. -/
def wrapErr (f : String → String) : Except String DocxSt → Except String DocxSt
  | .ok o => .ok o
  | .error e => .error (f e)

theorem TwoPy.saveAsDocx_eq_wrap (soup : List Node) (k : Nat) :
    TwoPy.saveAsDocx soup k
      = wrapErr (fun e => "DOCX conversion failed: " ++ e)
          (TwoPy.saveAsDocxBody soup k) := by
  unfold TwoPy.saveAsDocx
  cases hx : TwoPy.saveAsDocxBody soup k <;> simp [wrapErr]

theorem resultView_wrap (f : String → String) (x y : Except String DocxSt)
    (h : resultView x = resultView y) :
    resultView (wrapErr f x) = resultView (wrapErr f y) := by
  cases x <;> cases y <;> simp [resultView, wrapErr] at h ⊢ <;> simp [h]

theorem TwoPy.saveAsDocxBody_view (soup : List Node) (k k' : Nat) :
    resultView (TwoPy.saveAsDocxBody soup k)
      = resultView (TwoPy.saveAsDocxBody soup k') := by
  unfold TwoPy.saveAsDocxBody
  cases hb : findBody soup with
  | none => rfl
  | some body => exact TwoPy.processAll_indep (descendants body) [] [] [] k k'

theorem TwoPy.saveAsDocx_view (soup : List Node) (k k' : Nat) :
    resultView (TwoPy.saveAsDocx soup k)
      = resultView (TwoPy.saveAsDocx soup k') := by
  rw [TwoPy.saveAsDocx_eq_wrap, TwoPy.saveAsDocx_eq_wrap]
  exact resultView_wrap _ _ _ (TwoPy.saveAsDocxBody_view soup k k')

/-- C8: no state carried by the exporter flows between calls (the input
content, a string, is passed by value and cannot be mutated in the
embedding).  After an export to `p1`, a second export of the same content to
a different path `p2` returns the same result and writes the same file at
`p2` as it would from the initial world, and the file at `p1` is left as the
first export wrote it. -/
theorem c8_no_cross_call_state (parse : String → List Node)
    (content p1 p2 : String) (w : World) (hne : p1 ≠ p2) :
    ((TwoPy.saveToFile parse (TwoPy.saveToFile parse w content p1).1
        content p2).2
      = (TwoPy.saveToFile parse w content p2).2) ∧
    (lookupFile (TwoPy.saveToFile parse (TwoPy.saveToFile parse w content p1).1
        content p2).1.fs p2
      = lookupFile (TwoPy.saveToFile parse w content p2).1.fs p2) ∧
    (lookupFile (TwoPy.saveToFile parse (TwoPy.saveToFile parse w content p1).1
        content p2).1.fs p1
      = lookupFile (TwoPy.saveToFile parse w content p1).1.fs p1) := by
  set w1 := (TwoPy.saveToFile parse w content p1).1 with hw1
  have hlook : ∀ q, q ≠ p1 → lookupFile w1.fs q = lookupFile w.fs q := by
    intro q hq
    rw [hw1]
    by_cases h1 : endsWithPy p1 ".docx" = true
    · cases hs : TwoPy.saveAsDocx (parse content) w.nextTemp with
      | ok out =>
        simp [TwoPy.saveToFile, h1, hs, lookupFile_writeEntry_other _ _ _ _ hq]
      | error e => simp [TwoPy.saveToFile, h1, hs]
    · simp [TwoPy.saveToFile, h1, lookupFile_writeEntry_other _ _ _ _ hq]
  by_cases h2 : endsWithPy p2 ".docx" = true
  · have hview := TwoPy.saveAsDocx_view (parse content) w1.nextTemp w.nextTemp
    cases ha : TwoPy.saveAsDocx (parse content) w1.nextTemp with
    | ok o1 =>
      cases hb2 : TwoPy.saveAsDocx (parse content) w.nextTemp with
      | ok o2 =>
        have hdoc : o1.doc = o2.doc := by
          rw [ha, hb2] at hview
          simpa [resultView] using hview
        refine ⟨?_, ?_, ?_⟩
        · simp [TwoPy.saveToFile, h2, ha, hb2]
        · simp [TwoPy.saveToFile, h2, ha, hb2, lookupFile_writeEntry_self, hdoc]
        · simp [TwoPy.saveToFile, h2, ha, hb2,
            lookupFile_writeEntry_other _ _ _ _ hne]
      | error e2 =>
        rw [ha, hb2] at hview
        simp [resultView] at hview
    | error e1 =>
      cases hb2 : TwoPy.saveAsDocx (parse content) w.nextTemp with
      | ok o2 =>
        rw [ha, hb2] at hview
        simp [resultView] at hview
      | error e2 =>
        have he : e1 = e2 := by
          rw [ha, hb2] at hview
          simpa [resultView] using hview
        refine ⟨?_, ?_, ?_⟩
        · simp [TwoPy.saveToFile, h2, ha, hb2, he]
        · simp only [TwoPy.saveToFile, h2, ha, hb2, if_true]
          exact hlook p2 (Ne.symm hne)
        · simp [TwoPy.saveToFile, h2, ha, hb2]
  · refine ⟨?_, ?_, ?_⟩
    · simp [TwoPy.saveToFile, h2]
    · simp [TwoPy.saveToFile, h2, lookupFile_writeEntry_self]
    · simp [TwoPy.saveToFile, h2, lookupFile_writeEntry_other _ _ _ _ hne]

/-- Witness for C8: two sequential exports to different text paths. -/
theorem c8_no_cross_call_state_witness :
    ((TwoPy.saveToFile (fun _ => [])
        (TwoPy.saveToFile (fun _ => []) ⟨[], [], 0⟩ "x" "a.html").1
        "x" "b.html").2
      = (TwoPy.saveToFile (fun _ => []) ⟨[], [], 0⟩ "x" "b.html").2) ∧
    (lookupFile (TwoPy.saveToFile (fun _ => [])
        (TwoPy.saveToFile (fun _ => []) ⟨[], [], 0⟩ "x" "a.html").1
        "x" "b.html").1.fs "b.html"
      = lookupFile (TwoPy.saveToFile (fun _ => [])
          ⟨[], [], 0⟩ "x" "b.html").1.fs "b.html") ∧
    (lookupFile (TwoPy.saveToFile (fun _ => [])
        (TwoPy.saveToFile (fun _ => []) ⟨[], [], 0⟩ "x" "a.html").1
        "x" "b.html").1.fs "a.html"
      = lookupFile (TwoPy.saveToFile (fun _ => [])
          ⟨[], [], 0⟩ "x" "a.html").1.fs "a.html") :=
  c8_no_cross_call_state (fun _ => []) "x" "a.html" "b.html" ⟨[], [], 0⟩
    (by decide)

/-- Concrete image fixture: PNG signature plus one trailing zero byte, the
decode of the 12-character payload `iVBORw0KGgoA`. -/
def pngImg9C : Img := ⟨[137, 80, 78, 71, 13, 10, 26, 10, 0]⟩

/-- Concrete `src` fixture containing TWO commas: the code's
`split(",")[1]` keeps only `iVBORw0KGgoA`, while the spec's
first-comma-remainder is `iVBORw0KGgoA,QUJD`. -/
def twoCommaSrcC : String := "data:image/png;base64,iVBORw0KGgoA,QUJD"

/-- Counterexample to C2 as stated: on an `src` with two commas the code does
NOT base64-decode the remainder after the first comma.  The exporter decodes
the segment between the first and second comma and inserts the picture built
from those 9 bytes, while decoding the spec's remainder yields 12 bytes
(CPython's decoder discards the comma); the two decodes disagree. -/
theorem c2_split_counterexample :
    decodeImgElement (Node.tag "img" [("src", twoCommaSrcC)] [])
      = .ok pngImg9C ∧
    specDecodeImgSrc twoCommaSrcC
      = .ok ⟨[137, 80, 78, 71, 13, 10, 26, 10, 0, 65, 66, 67]⟩ ∧
    pngImg9C ≠ ⟨[137, 80, 78, 71, 13, 10, 26, 10, 0, 65, 66, 67]⟩ ∧
    b64decode "iVBORw0KGgoA" ≠ b64decode "iVBORw0KGgoA,QUJD" ∧
    TwoPy.addImageToDoc ⟨[], [], 0⟩ (Node.tag "img" [("src", twoCommaSrcC)] [])
      = .ok ⟨[DocItem.picture pngImg9C (Inches 4)], [(0, pngImg9C)], 1⟩ :=
  ⟨by decide, by decide, by decide, by decide, by decide⟩

/-- C2 as amended: for every image node visited during a successful DOCX
export, the exporter takes the node's `src`, splits it at every comma and
base64-decodes the SECOND piece (the segment between the first and second
comma — equal to the remainder only when the `src` has exactly one comma),
decodes the bytes as an image, re-encodes it into a new temporary PNG file,
and inserts one picture of fixed width 4 inches; each image element gets its
own independent (fresh, pairwise distinct) temporary file holding its
image. -/
theorem c2_amended_image_pipeline (soup : List Node) (body : Node) (k : Nat)
    (out : DocxSt) (hb : findBody soup = some body)
    (h : TwoPy.saveAsDocx soup k = .ok out) :
    out.temps.map Prod.snd = imgsAll (descendants body) ∧
    out.temps.map Prod.fst = idsFrom k (imgsAll (descendants body)).length ∧
    (out.temps.map Prod.fst).Nodup ∧
    picturesOf out.doc
      = (imgsAll (descendants body)).map (fun i => (i, Inches 4)) := by
  unfold TwoPy.saveAsDocx TwoPy.saveAsDocxBody at h
  simp only [hb] at h
  cases hpa : TwoPy.processAll ⟨[], [], k⟩ (descendants body) with
  | error e =>
    rw [hpa] at h
    exact Except.noConfusion h
  | ok out' =>
    rw [hpa] at h
    simp only [Except.ok.injEq] at h
    subst h
    obtain ⟨h1, h2, h3⟩ := TwoPy.processAll_ok _ _ _ hpa
    simp only [List.nil_append] at h1 h3
    have hlen : (idsFrom k (imgsAll (descendants body)).length).length
        = (imgsAll (descendants body)).length := idsFrom_length _ _
    refine ⟨?_, ?_, ?_, ?_⟩
    · rw [h3]
      exact List.map_snd_zip _ _ (le_of_eq hlen.symm)
    · rw [h3]
      exact List.map_fst_zip _ _ (le_of_eq hlen)
    · rw [h3, List.map_fst_zip _ _ (le_of_eq hlen)]
      exact idsFrom_nodup _ _
    · rw [h1, picturesOf_contribAll]

/-- Witness for the amended C2: two images, exported with the temp counter
starting at 5, get fresh temp files 5 and 6 and two 4-inch pictures. -/
theorem c2_amended_image_pipeline_witness :
    TwoPy.saveAsDocx
      [Node.tag "body" [] [Node.tag "img" [("src", pngSrcC)] [],
        Node.tag "img" [("src", twoCommaSrcC)] []]] 5
      = .ok ⟨[DocItem.picture pngImgC (Inches 4),
              DocItem.picture pngImg9C (Inches 4)],
             [(5, pngImgC), (6, pngImg9C)], 7⟩ ∧
    ([(5, pngImgC), (6, pngImg9C)].map Prod.snd
        = imgsAll (descendants (Node.tag "body" []
            [Node.tag "img" [("src", pngSrcC)] [],
             Node.tag "img" [("src", twoCommaSrcC)] []])) ∧
      [(5, pngImgC), (6, pngImg9C)].map Prod.fst
        = idsFrom 5 (imgsAll (descendants (Node.tag "body" []
            [Node.tag "img" [("src", pngSrcC)] [],
             Node.tag "img" [("src", twoCommaSrcC)] []]))).length ∧
      ([(5, pngImgC), (6, pngImg9C)].map Prod.fst).Nodup ∧
      picturesOf [DocItem.picture pngImgC (Inches 4),
                  DocItem.picture pngImg9C (Inches 4)]
        = (imgsAll (descendants (Node.tag "body" []
            [Node.tag "img" [("src", pngSrcC)] [],
             Node.tag "img" [("src", twoCommaSrcC)] []]))).map
            (fun i => (i, Inches 4))) :=
  ⟨rfl,
   c2_amended_image_pipeline
     [Node.tag "body" [] [Node.tag "img" [("src", pngSrcC)] [],
       Node.tag "img" [("src", twoCommaSrcC)] []]]
     (Node.tag "body" [] [Node.tag "img" [("src", pngSrcC)] [],
       Node.tag "img" [("src", twoCommaSrcC)] []])
     5
     ⟨[DocItem.picture pngImgC (Inches 4), DocItem.picture pngImg9C (Inches 4)],
      [(5, pngImgC), (6, pngImg9C)], 7⟩
     rfl rfl⟩

end GlassifyNotes
